import Mathlib

/-!
# Verification of the streamrip core against its specification

Shallow embedding of the Deezer source client (`streamrip/client/deezer.py`),
the media rip state machine (`src/media.py`), and the pending-label resolution
step (`streamrip/media/label.py`), together with theorems settling the spec
claims about quality negotiation, the encrypted-URL derivation fallback,
metadata dispatch, login, and dedup behaviour.

Bytes are modelled as `Nat` values below 256 and byte strings as `List Nat`,
mirroring Python `bytes`.  The two external cryptographic primitives the code
calls (`hashlib.md5` and `Cryptodome.AES` in ECB mode) are implemented
concretely so every derivation is executable.
-/

namespace Streamrip

/-- A byte string, as Python `bytes`: a list of naturals below 256. -/
abbrev Bytes := List Nat

/-! ## MD5 (the `hashlib.md5(...).hexdigest()` primitive) -/

namespace MD5

/-- Truncate to a 32-bit word. -/
def mask32 (x : Nat) : Nat := x % 4294967296

/-- 32-bit left rotation. -/
def rotl32 (x s : Nat) : Nat :=
  mask32 ((x <<< s) + (x >>> (32 - s)))

/-- 32-bit bitwise complement. -/
def not32 (x : Nat) : Nat := x ^^^ 4294967295

/-- The per-round shift amounts of MD5. -/
def shifts : List Nat :=
  [7, 12, 17, 22, 7, 12, 17, 22, 7, 12, 17, 22, 7, 12, 17, 22,
   5, 9, 14, 20, 5, 9, 14, 20, 5, 9, 14, 20, 5, 9, 14, 20,
   4, 11, 16, 23, 4, 11, 16, 23, 4, 11, 16, 23, 4, 11, 16, 23,
   6, 10, 15, 21, 6, 10, 15, 21, 6, 10, 15, 21, 6, 10, 15, 21]

/-- The sine-derived additive constants of MD5. -/
def kTable : List Nat :=
  [3614090360, 3905402710, 606105819, 3250441966, 4118548399, 1200080426,
   2821735955, 4249261313, 1770035416, 2336552879, 4294925233, 2304563134,
   1804603682, 4254626195, 2792965006, 1236535329, 4129170786, 3225465664,
   643717713, 3921069994, 3593408605, 38016083, 3634488961, 3889429448,
   568446438, 3275163606, 4107603335, 1163531501, 2850285829, 4243563512,
   1735328473, 2368359562, 4294588738, 2272392833, 1839030562, 4259657740,
   2763975236, 1272893353, 4139469664, 3200236656, 681279174, 3936430074,
   3572445317, 76029189, 3654602809, 3873151461, 530742520, 3299628645,
   4096336452, 1126891415, 2878612391, 4237533241, 1700485571, 2399980690,
   4293915773, 2240044497, 1873313359, 4264355552, 2734768916, 1309151649,
   4149444226, 3174756917, 718787259, 3951481745]

/-- Split a byte list into a little-endian 32-bit word list (4 bytes each). -/
def wordsOfBytes : Bytes → List Nat
  | b0 :: b1 :: b2 :: b3 :: rest =>
      (b0 + b1 * 256 + b2 * 65536 + b3 * 16777216) :: wordsOfBytes rest
  | _ => []

/-- Little-endian bytes of a value, to a given width. -/
def leBytes (width x : Nat) : Bytes :=
  match width with
  | 0 => []
  | w + 1 => x % 256 :: leBytes w (x / 256)

/-- MD5 message padding: a 0x80 byte, zeros to 56 mod 64, then the 64-bit
little-endian bit length. -/
def pad (msg : Bytes) : Bytes :=
  let zeros := (64 + 56 - (msg.length + 1) % 64) % 64
  msg ++ [128] ++ List.replicate zeros 0 ++ leBytes 8 (msg.length * 8)

/-- One of the 64 MD5 steps, acting on the running `(a, b, c, d)` state with
message-block words `m`. -/
def step (m : List Nat) (st : Nat × Nat × Nat × Nat) (i : Nat) :
    Nat × Nat × Nat × Nat :=
  let (a, b, c, d) := st
  let f :=
    if i < 16 then (b &&& c) ||| (not32 b &&& d)
    else if i < 32 then (d &&& b) ||| (not32 d &&& c)
    else if i < 48 then b ^^^ c ^^^ d
    else c ^^^ (b ||| not32 d)
  let g :=
    if i < 16 then i
    else if i < 32 then (5 * i + 1) % 16
    else if i < 48 then (3 * i + 5) % 16
    else (7 * i) % 16
  let sum := mask32 (a + f + kTable.getD i 0 + m.getD g 0)
  (d, mask32 (b + rotl32 sum (shifts.getD i 0)), b, c)

/-- Process one 64-byte block, updating the four chaining words. -/
def processBlock (h : Nat × Nat × Nat × Nat) (block : Bytes) :
    Nat × Nat × Nat × Nat :=
  let m := wordsOfBytes block
  let (a, b, c, d) := (List.range 64).foldl (step m) h
  let (h0, h1, h2, h3) := h
  (mask32 (h0 + a), mask32 (h1 + b), mask32 (h2 + c), mask32 (h3 + d))

/-- Split a list into chunks of a positive size `n`, with enough fuel.
Structural recursion on the fuel so the kernel can evaluate it. -/
def chunksAux (n : Nat) (fuel : Nat) (l : Bytes) : List Bytes :=
  match fuel, l with
  | 0, _ => []
  | _, [] => []
  | f + 1, l => l.take n :: chunksAux n f (l.drop n)

/-- Split a list into chunks of 64. -/
def chunks64 (l : Bytes) : List Bytes := chunksAux 64 l.length l

/-- The 16-byte MD5 digest of a message. -/
def digest (msg : Bytes) : Bytes :=
  let (a, b, c, d) :=
    (chunks64 (pad msg)).foldl processBlock
      (1732584193, 4023233417, 2562383102, 271733878)
  leBytes 4 a ++ leBytes 4 b ++ leBytes 4 c ++ leBytes 4 d

/-- A nibble as a lowercase ASCII hex character code. -/
def hexChar (n : Nat) : Nat :=
  if n < 10 then 48 + n else 87 + n

/-- Lowercase hex encoding of a byte string, as ASCII bytes
(Python `binascii.hexlify` / `.hexdigest()` then `.encode()`). -/
def hexlify (bs : Bytes) : Bytes :=
  bs.flatMap (fun b => [hexChar (b / 16), hexChar (b % 16)])

/-- `hashlib.md5(msg).hexdigest().encode()`: the 32 ASCII bytes of the
lowercase hex digest. -/
def hexdigestBytes (msg : Bytes) : Bytes := hexlify (digest msg)

end MD5

/-! ## AES-128 in ECB mode (the `Cryptodome.Cipher.AES` primitive) -/

namespace AES

/-- The AES substitution box. -/
def sbox : List Nat :=
  [99, 124, 119, 123, 242, 107, 111, 197, 48, 1, 103, 43, 254, 215, 171, 118,
   202, 130, 201, 125, 250, 89, 71, 240, 173, 212, 162, 175, 156, 164, 114, 192,
   183, 253, 147, 38, 54, 63, 247, 204, 52, 165, 229, 241, 113, 216, 49, 21,
   4, 199, 35, 195, 24, 150, 5, 154, 7, 18, 128, 226, 235, 39, 178, 117,
   9, 131, 44, 26, 27, 110, 90, 160, 82, 59, 214, 179, 41, 227, 47, 132,
   83, 209, 0, 237, 32, 252, 177, 91, 106, 203, 190, 57, 74, 76, 88, 207,
   208, 239, 170, 251, 67, 77, 51, 133, 69, 249, 2, 127, 80, 60, 159, 168,
   81, 163, 64, 143, 146, 157, 56, 245, 188, 182, 218, 33, 16, 255, 243, 210,
   205, 12, 19, 236, 95, 151, 68, 23, 196, 167, 126, 61, 100, 93, 25, 115,
   96, 129, 79, 220, 34, 42, 144, 136, 70, 238, 184, 20, 222, 94, 11, 219,
   224, 50, 58, 10, 73, 6, 36, 92, 194, 211, 172, 98, 145, 149, 228, 121,
   231, 200, 55, 109, 141, 213, 78, 169, 108, 86, 244, 234, 101, 122, 174, 8,
   186, 120, 37, 46, 28, 166, 180, 198, 232, 221, 116, 31, 75, 189, 139, 138,
   112, 62, 181, 102, 72, 3, 246, 14, 97, 53, 87, 185, 134, 193, 29, 158,
   225, 248, 152, 17, 105, 217, 142, 148, 155, 30, 135, 233, 206, 85, 40, 223,
   140, 161, 137, 13, 191, 230, 66, 104, 65, 153, 45, 15, 176, 84, 187, 22]

/-- Look a byte up in the S-box. -/
def sub (b : Nat) : Nat := sbox.getD b 0

/-- The AES round constants for AES-128 key expansion. -/
def rcon : List Nat := [1, 2, 4, 8, 16, 32, 64, 128, 27, 54]

/-- One key-expansion step: word `i` from words `i - 1` and `i - 4`.
Words are 4-byte lists. -/
def nextWord (i : Nat) (prev fourBack : List Nat) : List Nat :=
  let t :=
    if i % 4 = 0 then
      let rot := prev.drop 1 ++ prev.take 1
      let sb := rot.map sub
      (sb.getD 0 0 ^^^ rcon.getD (i / 4 - 1) 0) :: sb.drop 1
    else prev
  (List.range 4).map (fun j => fourBack.getD j 0 ^^^ t.getD j 0)

/-- AES-128 key expansion: the 44 four-byte words of the round keys. -/
def expandFrom (w : List (List Nat)) (i : Nat) : List (List Nat) :=
  match i with
  | 0 => w
  | n + 1 =>
      let w' := expandFrom w n
      w' ++ [nextWord (4 + n) (w'.getD (3 + n) []) (w'.getD n [])]

/-- The full expanded key schedule of a 16-byte key. -/
def keySchedule (key : Bytes) : List (List Nat) :=
  expandFrom ((List.range 4).map (fun i => key.drop (4 * i) |>.take 4)) 40

/-- Multiplication by x in GF(2^8). -/
def xtime (b : Nat) : Nat :=
  if b < 128 then b * 2 else (b * 2) ^^^ 283

/-- AddRoundKey on a column-major 16-byte state: byte `c*4+r` of the state is
xored with byte `r` of round-key word `c`. -/
def addRoundKey (w : List (List Nat)) (rnd : Nat) (st : Bytes) : Bytes :=
  (List.range 16).map
    (fun i => st.getD i 0 ^^^ (w.getD (rnd * 4 + i / 4) []).getD (i % 4) 0)

/-- SubBytes. -/
def subBytes (st : Bytes) : Bytes := st.map sub

/-- ShiftRows on a column-major state: row `r` rotates left by `r`. -/
def shiftRows (st : Bytes) : Bytes :=
  (List.range 16).map (fun i => st.getD ((i + 4 * (i % 4)) % 16) 0)

/-- MixColumns on one 4-byte column. -/
def mixColumn (col : List Nat) : List Nat :=
  let a0 := col.getD 0 0
  let a1 := col.getD 1 0
  let a2 := col.getD 2 0
  let a3 := col.getD 3 0
  [xtime a0 ^^^ (a1 ^^^ xtime a1) ^^^ a2 ^^^ a3,
   a0 ^^^ xtime a1 ^^^ (a2 ^^^ xtime a2) ^^^ a3,
   a0 ^^^ a1 ^^^ xtime a2 ^^^ (a3 ^^^ xtime a3),
   (a0 ^^^ xtime a0) ^^^ a1 ^^^ a2 ^^^ xtime a3]

/-- MixColumns on the whole state. -/
def mixColumns (st : Bytes) : Bytes :=
  (List.range 4).flatMap (fun c => mixColumn (st.drop (4 * c) |>.take 4))

/-- One middle AES round. -/
def round (w : List (List Nat)) (st : Bytes) (rnd : Nat) : Bytes :=
  addRoundKey w rnd (mixColumns (shiftRows (subBytes st)))

/-- AES-128 encryption of one 16-byte block. -/
def encryptBlock (key block : Bytes) : Bytes :=
  let w := keySchedule key
  let st0 := addRoundKey w 0 block
  let st9 := ((List.range 9).map (· + 1)).foldl (round w) st0
  addRoundKey w 10 (shiftRows (subBytes st9))

/-- Split a list into chunks of 16. -/
def chunks16 (l : Bytes) : List Bytes := MD5.chunksAux 16 l.length l

/-- ECB-mode encryption: each 16-byte block encrypted independently
(`AES.new(key, AES.MODE_ECB).encrypt`). -/
def ecbEncrypt (key msg : Bytes) : Bytes :=
  (chunks16 msg).flatMap (encryptBlock key)

end AES

/-! ## Error taxonomy (`streamrip/exceptions.py` as used by the client) -/

/-- The exceptions the Deezer client can raise: the three typed streamrip
exceptions plus plain Python `Exception(msg)` and errors propagated from the
provider API library. -/
inductive DeezerErr where
  | MissingCredentials : DeezerErr
  | AuthenticationError : DeezerErr
  | NonStreamable (msg : String) : DeezerErr
  | genericException (msg : String) : DeezerErr
  | apiError (msg : String) : DeezerErr
  | indexError (msg : String) : DeezerErr
deriving DecidableEq, Repr

/-! ## `DeezerClient._get_encrypted_file_url` (deezer.py lines 181-211) -/

/-- `b"\xa4".join((track_hash.encode(), str(1).encode(), str(meta_id).encode(),
str(media_version).encode()))`: the four identifying fields joined with the
0xA4 separator.  `format_number` is the constant 1, whose ASCII encoding is
the byte 49. -/
def url_bytes (meta_id track_hash media_version : Bytes) : Bytes :=
  List.intercalate [164] [track_hash, [49], meta_id, media_version]

/-- The buffer before padding: the MD5 hex digest of `url_bytes`, a 0xA4
separator, `url_bytes` itself, and a trailing 0xA4 separator. -/
def info_bytes_prepad (meta_id track_hash media_version : Bytes) : Bytes :=
  MD5.hexdigestBytes (url_bytes meta_id track_hash media_version) ++ [164] ++
    url_bytes meta_id track_hash media_version ++ [164]

/-- `padding_len = 16 - (len(info_bytes) % 16)`. -/
def padding_len (meta_id track_hash media_version : Bytes) : Nat :=
  16 - (info_bytes_prepad meta_id track_hash media_version).length % 16

/-- The padded buffer: `info_bytes.extend(b"." * padding_len)` (the ASCII
code of `.` is 46). -/
def info_bytes (meta_id track_hash media_version : Bytes) : Bytes :=
  info_bytes_prepad meta_id track_hash media_version ++
    List.replicate (padding_len meta_id track_hash media_version) 46

/-- The fixed AES key `b"jo6aey6haid2Teih"`. -/
def deezerKey : Bytes :=
  [106, 111, 54, 97, 101, 121, 54, 104, 97, 105, 100, 50, 84, 101, 105, 104]

/-- The hex-encoded AES-ECB encryption of the padded buffer: the resource
path component of the derived URL. -/
def encrypted_path (meta_id track_hash media_version : Bytes) : Bytes :=
  MD5.hexlify (AES.ecbEncrypt deezerKey (info_bytes meta_id track_hash media_version))

/-- ASCII bytes of a string (all inputs used here are ASCII). -/
def ascii (s : String) : Bytes := s.toList.map Char.toNat

/-- `DeezerClient._get_encrypted_file_url`: the deterministic encrypted-URL
derivation fallback, returning
`https://e-cdns-proxy-{track_hash[0]}.dzcdn.net/mobile/1/{path}`.  The
subscript `track_hash[0]` in the final f-string raises
`IndexError("string index out of range")` when `track_hash` is empty, the one
failure path of the derivation; every other step is total. -/
def _get_encrypted_file_url (meta_id track_hash media_version : Bytes) :
    Except DeezerErr Bytes :=
  match track_hash with
  | [] => .error (.indexError "string index out of range")
  | h0 :: _ =>
      .ok (ascii "https://e-cdns-proxy-" ++ [h0] ++
        ascii ".dzcdn.net/mobile/1/" ++
        encrypted_path meta_id track_hash media_version)

/-! ## `DeezerClient.get_downloadable` (deezer.py lines 116-179) -/

/-- The fields of the `gw.get_track` response that `get_downloadable` reads. -/
structure TrackInfo where
  FALLBACK_SNG_ID : Option Bytes
  FILESIZE_MP3_128 : Nat
  FILESIZE_MP3_320 : Nat
  FILESIZE_FLAC : Nat
  TRACK_TOKEN : Bytes
  MD5_ORIGIN : Bytes
  MEDIA_VERSION : Bytes
deriving DecidableEq, Repr

/-- `quality_map = [(9, "MP3_128"), (3, "MP3_320"), (1, "FLAC")]`, indexed by
the requested quality tier. -/
def quality_map : List (Nat × String) :=
  [(9, "MP3_128"), (3, "MP3_320"), (1, "FLAC")]

/-- `track_info[f"FILESIZE_{format}"]` for the three formats of `quality_map`. -/
def filesizeOf (t : TrackInfo) (format : String) : Nat :=
  if format = "MP3_128" then t.FILESIZE_MP3_128
  else if format = "MP3_320" then t.FILESIZE_MP3_320
  else t.FILESIZE_FLAC

/-- Outcome of the external `deezer-py` call `client.get_track_url(token,
format_str)`: a URL, `None`, or one of the library's license/geolocation
exceptions. -/
inductive FetchResult where
  | ok (url : Option Bytes) : FetchResult
  | wrongLicense : FetchResult
  | wrongGeolocation : FetchResult
deriving DecidableEq, Repr

/-- Quality tier encoded by each format string, per the comments on
`quality_map` (MP3_128 is tier 0, MP3_320 tier 1, FLAC tier 2). -/
def formatTier (format : String) : Nat :=
  if format = "MP3_128" then 0 else if format = "MP3_320" then 1 else 2

/-- Model of the external `deezer-py` gw session behind `get_track_url`:
`maxTier` is the highest quality tier the active subscription licenses
(`none` when no tier at all is streamable), `geoBlocked` whether the track is
geo-restricted, and `urlFound` the URL the provider returns for a licensed
request (`none` when the primary negotiation yields no URL). -/
structure GwSession where
  maxTier : Option Nat
  geoBlocked : Bool
  urlFound : Option Bytes
deriving DecidableEq, Repr

/-- The external library call `client.get_track_url(token, format_str)`:
raises `WrongGeolocation` for geo-restricted tracks, `WrongLicense` when the
subscription does not license the requested format's tier, and otherwise
returns the negotiated URL (possibly `None`). -/
def get_track_url (s : GwSession) (format : String) : FetchResult :=
  if s.geoBlocked then .wrongGeolocation
  else
    match s.maxTier with
    | none => .wrongLicense
    | some m => if formatTier format ≤ m then .ok s.urlFound else .wrongLicense

/-- The `dl_info` dict assembled by `get_downloadable` and wrapped in the
returned `DeezerDownloadable`. -/
structure DlInfo where
  quality : Nat
  id : Bytes
  fallback_id : Option Bytes
  quality_to_size : List Nat
  url : Bytes
deriving DecidableEq, Repr

/-- The `DeezerDownloadable` constructed at the end of `get_downloadable`. -/
structure DeezerDownloadable where
  dl_info : DlInfo
deriving DecidableEq, Repr

/-- The message raised on `deezer.WrongLicense`. -/
def wrongLicenseMsg : String :=
  "The requested quality is not available with your subscription. " ++
    "Deezer HiFi is required for quality 2. Otherwise, the maximum " ++
    "quality allowed is 1."

/-- The message raised on `deezer.WrongGeolocation`. -/
def wrongGeolocationMsg : String :=
  "The requested track is not available. This may be due to your country/location."

/-- `DeezerClient.get_downloadable(item_id, quality)`: looks the requested
tier up in `quality_map`, asks the gw session for a URL at that format,
converts the library's license/geolocation exceptions into `NonStreamable`,
falls back to `_get_encrypted_file_url` when the fetched URL is `None`, and
returns the assembled `DeezerDownloadable`. -/
def get_downloadable (gw : GwSession) (track_info : TrackInfo)
    (item_id : Bytes) (quality : Nat) : Except DeezerErr DeezerDownloadable :=
  match quality_map[quality]? with
  | none => .error (.genericException "list index out of range")
  | some (_, format_str) =>
      let fallback_id := track_info.FALLBACK_SNG_ID
      let quality_to_size := quality_map.map (fun p => filesizeOf track_info p.2)
      match get_track_url gw format_str with
      | .wrongLicense => .error (.NonStreamable wrongLicenseMsg)
      | .wrongGeolocation => .error (.NonStreamable wrongGeolocationMsg)
      | .ok fetched =>
          match fetched with
          | some u => .ok ⟨⟨quality, item_id, fallback_id, quality_to_size, u⟩⟩
          | none =>
              match _get_encrypted_file_url item_id track_info.MD5_ORIGIN
                  track_info.MEDIA_VERSION with
              | .error e => .error e
              | .ok url => .ok ⟨⟨quality, item_id, fallback_id, quality_to_size, url⟩⟩

/-! ## The spec's wording of the derivation, for comparison (claim C3)

The spec describes the padded buffer as: join the four fields with the 0xA4
separator, prepend the MD5 hex digest, append a trailing separator, and pad
with zero bytes up to the 16-byte block size.  `spec_padded_buffer` is that
description verbatim; `amended_padded_buffer` is the minimally amended
description (a separator also follows the digest, and the padding bytes are
ASCII `.` = 0x2E, not zero bytes). -/

/-- The padded buffer exactly as the spec's words build it: digest prepended
to the joined fields, one trailing separator, zero-byte padding to the
16-byte block size. -/
def spec_padded_buffer (meta_id track_hash media_version : Bytes) : Bytes :=
  let joined := url_bytes meta_id track_hash media_version
  let withDigest := MD5.hexdigestBytes joined ++ joined ++ [164]
  withDigest ++ List.replicate (16 - withDigest.length % 16) 0

/-- The amended wording of the buffer: digest, separator, joined fields,
trailing separator, then ASCII `.` (0x2E) padding to the 16-byte block
size. -/
def amended_padded_buffer (meta_id track_hash media_version : Bytes) : Bytes :=
  let joined := url_bytes meta_id track_hash media_version
  let withDigest := MD5.hexdigestBytes joined ++ [164] ++ joined ++ [164]
  withDigest ++ List.replicate (16 - withDigest.length % 16) 46

/-- The resource path per the amended spec wording: AES-ECB under the fixed
key applied to the amended buffer, hex encoded. -/
def amended_spec_path (meta_id track_hash media_version : Bytes) : Bytes :=
  MD5.hexlify
    (AES.ecbEncrypt deezerKey (amended_padded_buffer meta_id track_hash media_version))

/-! ## Metadata lookup (`DeezerClient.get_metadata` and helpers,
deezer.py lines 39-95) -/

/-- The album object held inside a track response: the bare `item["album"]`
sub-dict carrying the album id, or the full album metadata spliced in by
`get_track` after the concurrent album sub-requests. -/
inductive AlbumField where
  | basic (id : Bytes) : AlbumField
  | full (album : Bytes × List Bytes × Nat) : AlbumField
deriving DecidableEq, Repr

/-- `item["album"]["id"]`. -/
def AlbumField.albumId : AlbumField → Bytes
  | .basic i => i
  | .full (i, _, _) => i

/-- A track response from `api.get_track`: an opaque payload plus the nested
album object. -/
structure TrackResp where
  payload : Nat
  album : AlbumField
deriving DecidableEq, Repr

/-- An album response: opaque header payload plus the `tracks` and
`track_total` keys `get_album` splices in. -/
structure AlbumResp where
  id : Bytes
  payload : Nat
  tracks : List Bytes
  track_total : Nat
deriving DecidableEq, Repr

/-- A playlist response, same shape as an album response. -/
structure PlaylistResp where
  payload : Nat
  tracks : List Bytes
  track_total : Nat
deriving DecidableEq, Repr

/-- An artist response: opaque payload plus the `albums` key. -/
structure ArtistResp where
  payload : Nat
  albums : List Bytes
deriving DecidableEq, Repr

/-- A `{"data": [...]}` listing response (`get_album_tracks`,
`get_playlist_tracks`, `get_artist_albums`). -/
structure DataResp where
  data : List Bytes
deriving DecidableEq, Repr

/-- The provider REST API (`self.client.api`) as an environment of fallible
endpoint responses; each endpoint either returns its payload or raises. -/
structure DeezerApi where
  api_get_track : Bytes → Except DeezerErr TrackResp
  api_get_album : Bytes → Except DeezerErr AlbumResp
  api_get_album_tracks : Bytes → Except DeezerErr DataResp
  api_get_playlist : Bytes → Except DeezerErr PlaylistResp
  api_get_playlist_tracks : Bytes → Except DeezerErr DataResp
  api_get_artist : Bytes → Except DeezerErr ArtistResp
  api_get_artist_albums : Bytes → Except DeezerErr DataResp

/-- `asyncio.gather` of two sub-requests: both results, or the raised
exception of a failing one. -/
def gather2 {α β : Type} (a : Except DeezerErr α) (b : Except DeezerErr β) :
    Except DeezerErr (α × β) := do
  let x ← a
  let y ← b
  pure (x, y)

/-- `DeezerClient.get_track`: fetch the track, then fetch the album header
and album track listing concurrently; on any exception from those two
sub-requests, log and return the bare track item unchanged; otherwise splice
the enriched album into `item["album"]`. -/
def get_track (api : DeezerApi) (item_id : Bytes) : Except DeezerErr TrackResp :=
  match api.api_get_track item_id with
  | .error e => .error e
  | .ok item =>
      let album_id := item.album.albumId
      match gather2 (api.api_get_album album_id) (api.api_get_album_tracks album_id) with
      | .error _ => .ok item
      | .ok (album_metadata, album_tracks) =>
          .ok { item with
            album := .full (album_metadata.id, album_tracks.data, album_tracks.data.length) }

/-- `DeezerClient.get_album`: fetch the album header and track listing
concurrently and splice the listing in; a failure of either sub-request
propagates to the caller. -/
def get_album (api : DeezerApi) (item_id : Bytes) : Except DeezerErr AlbumResp :=
  match gather2 (api.api_get_album item_id) (api.api_get_album_tracks item_id) with
  | .error e => .error e
  | .ok (album_metadata, album_tracks) =>
      .ok { album_metadata with
        tracks := album_tracks.data, track_total := album_tracks.data.length }

/-- `DeezerClient.get_playlist`. -/
def get_playlist (api : DeezerApi) (item_id : Bytes) :
    Except DeezerErr PlaylistResp :=
  match gather2 (api.api_get_playlist item_id) (api.api_get_playlist_tracks item_id) with
  | .error e => .error e
  | .ok (pl_metadata, pl_tracks) =>
      .ok { pl_metadata with
        tracks := pl_tracks.data, track_total := pl_tracks.data.length }

/-- `DeezerClient.get_artist`. -/
def get_artist (api : DeezerApi) (item_id : Bytes) :
    Except DeezerErr ArtistResp :=
  match gather2 (api.api_get_artist item_id) (api.api_get_artist_albums item_id) with
  | .error e => .error e
  | .ok (artist, albums) => .ok { artist with albums := albums.data }

/-- The provider-native metadata `get_metadata` returns, tagged by variant. -/
inductive MetaResp where
  | track (t : TrackResp) : MetaResp
  | album (a : AlbumResp) : MetaResp
  | playlist (p : PlaylistResp) : MetaResp
  | artist (a : ArtistResp) : MetaResp
deriving DecidableEq, Repr

/-- `DeezerClient.get_metadata(item_id, media_type)`: dispatch on the media
type string; any type other than track, album, playlist or artist falls into
the final `else` branch, which raises
`Exception(f"Media type {media_type} not available on deezer")`. -/
def get_metadata (api : DeezerApi) (item_id : Bytes) (media_type : String) :
    Except DeezerErr MetaResp :=
  if media_type = "track" then (get_track api item_id).map .track
  else if media_type = "album" then (get_album api item_id).map .album
  else if media_type = "playlist" then (get_playlist api item_id).map .playlist
  else if media_type = "artist" then (get_artist api item_id).map .artist
  else .error (.genericException ("Media type " ++ media_type ++ " not available on deezer"))

/-! ## `DeezerClient.login` (deezer.py lines 28-37) -/

/-- Client state after a successful login. -/
structure ClientState where
  logged_in : Bool
deriving DecidableEq, Repr

/-- `DeezerClient.login`: raise `MissingCredentials` when the configured arl
is falsy (the empty string), try `login_via_arl` otherwise, raise
`AuthenticationError` when the provider rejects it, and set `logged_in` on
success.  `login_via_arl` is the external provider check, passed as an
oracle. -/
def login (arl : String) (login_via_arl : String → Bool) :
    Except DeezerErr ClientState :=
  if arl = "" then .error .MissingCredentials
  else if login_via_arl arl then .ok ⟨true⟩
  else .error .AuthenticationError

/-! ## The rip state machine (`src/media.py`) -/

/-- The three phases `Media.rip` drives. -/
inductive Phase where
  | preprocess : Phase
  | download : Phase
  | postprocess : Phase
deriving DecidableEq, Repr

/-- A concrete `Media` subclass: the three abstract phase methods, each a
fallible action on a state of type `σ`. -/
structure MediaImpl (σ ε : Type) where
  preprocess : σ → Except ε σ
  download : σ → Except ε σ
  postprocess : σ → Except ε σ

/-- `Media.rip`: `await self.preprocess(); await self.download();
await self.postprocess()`, with Python exception propagation.  The first
component records which phases were invoked, in invocation order. -/
def rip {σ ε : Type} (m : MediaImpl σ ε) (s : σ) :
    List Phase × Except ε σ :=
  match m.preprocess s with
  | .error e => ([.preprocess], .error e)
  | .ok s1 =>
      match m.download s1 with
      | .error e => ([.preprocess, .download], .error e)
      | .ok s2 =>
          match m.postprocess s2 with
          | .error e => ([.preprocess, .download, .postprocess], .error e)
          | .ok s3 => ([.preprocess, .download, .postprocess], .ok s3)

/-! ## `PendingLabel.resolve` (`streamrip/media/label.py`) -/

/-- Modelled from the spec: the Dedup Ledger store (`streamrip/db.py` is not
among the sources), recording ids of successfully downloaded and permanently
failed items; a `succeeded` record is the skip signal. -/
structure Database where
  downloaded : List Bytes
  failed : List Bytes
deriving DecidableEq, Repr

/-- Modelled from the spec: `LabelMetadata` (`streamrip/metadata` is not
among the sources) as parsed from a provider label response by
`LabelMetadata.from_resp`: the label's name and the ids of its albums. -/
structure LabelMetadata where
  name : String
  album_ids_list : List Bytes
deriving DecidableEq, Repr

/-- A provider label response, carrying what `LabelMetadata.from_resp`
extracts. -/
structure LabelResp where
  name : String
  album_ids_list : List Bytes
deriving DecidableEq, Repr

/-- Modelled from the spec: `LabelMetadata.from_resp(resp, source)`. -/
def LabelMetadata.from_resp (resp : LabelResp) : LabelMetadata :=
  ⟨resp.name, resp.album_ids_list⟩

/-- A `PendingAlbum` child constructed during label resolution (only its
identifying id matters here; client, config and db are threaded through). -/
structure PendingAlbum where
  id : Bytes
  db : Database
deriving DecidableEq, Repr

/-- The resolved `Label`. -/
structure Label where
  name : String
  albums : List PendingAlbum

/-- The generic `Client` dependency of `PendingLabel`, as the metadata
responses it would return: one fallible `get_metadata(id, media_type)`
endpoint. -/
structure ClientEnv where
  client_get_metadata : Bytes → String → Except DeezerErr LabelResp

/-- A network call issued during resolution. -/
inductive NetCall where
  | get_metadata_call (id : Bytes) (media_type : String) : NetCall
deriving DecidableEq, Repr

/-- `PendingLabel`: the dataclass fields `id`, `client`, `config`, `db`
(config is opaque here). -/
structure PendingLabel where
  id : Bytes
  db : Database
deriving DecidableEq, Repr

/-- `PendingLabel.resolve`: its body's first statement is
`resp = await self.client.get_metadata(self.id, "label")`, issued
unconditionally; then `meta = LabelMetadata.from_resp(resp, ...)` and one
`PendingAlbum` per album id.  The first component is the list of network
resolution calls issued, in order. -/
def PendingLabel.resolve (p : PendingLabel) (client : ClientEnv) :
    List NetCall × Except DeezerErr Label :=
  ([.get_metadata_call p.id "label"],
    do
      let resp ← client.client_get_metadata p.id "label"
      let meta := LabelMetadata.from_resp resp
      let albums := meta.album_ids_list.map (fun album_id => PendingAlbum.mk album_id p.db)
      pure ⟨meta.name, albums⟩)

/-! ## Supporting lemmas -/

/-- On every nonempty track hash the derivation succeeds and the derived URL
starts with the literal `https://e-cdns-proxy-` prefix bytes, so it is in
particular nonempty. -/
theorem get_encrypted_file_url_head (meta_id media_version : Bytes)
    (h0 : Nat) (t : Bytes) :
    ∃ rest, _get_encrypted_file_url meta_id (h0 :: t) media_version =
      .ok (104 :: 116 :: 116 :: 112 :: 115 :: rest) := by
  exact ⟨_, rfl⟩

/-! ## Claim C1: quality-tier negotiation -/

/-- C1 (counterexample): with a session licensing only tiers at or below 1
(`maxTier = some 1`), requesting tier 1 succeeds, but requesting tier 2 does
not clamp to tier 1 — `get_downloadable` raises `NonStreamable`, refuting
"yields tier M deterministically without raising an error". -/
theorem get_downloadable_no_clamp_counterexample :
    get_downloadable ⟨some 1, false, some [120]⟩
        ⟨none, 1, 2, 3, [116], ascii "abcd1234", [55]⟩ [52, 50] 1 =
      .ok ⟨⟨1, [52, 50], none, [1, 2, 3], [120]⟩⟩ ∧
    get_downloadable ⟨some 1, false, some [120]⟩
        ⟨none, 1, 2, 3, [116], ascii "abcd1234", [55]⟩ [52, 50] 2 =
      .error (.NonStreamable wrongLicenseMsg) := by
  exact ⟨rfl, rfl⟩

/-- C1 (amended): when the session's licensed maximum tier is below the tier
of the requested format (or no tier is licensed at all) and the track is not
geo-blocked, `get_downloadable` never clamps: it raises `NonStreamable` with
the capability message. -/
theorem get_downloadable_insufficient_tier (gw : GwSession) (ti : TrackInfo)
    (item_id : Bytes) (quality n : Nat) (fmt : String)
    (hq : quality_map[quality]? = some (n, fmt))
    (hgeo : gw.geoBlocked = false)
    (hcap : ∀ m ∈ gw.maxTier, m < formatTier fmt) :
    get_downloadable gw ti item_id quality =
      .error (.NonStreamable wrongLicenseMsg) := by
  unfold get_downloadable
  rw [hq]
  have hurl : get_track_url gw fmt = .wrongLicense := by
    unfold get_track_url
    rw [hgeo]
    simp only [Bool.false_eq_true, if_false]
    cases hmax : gw.maxTier with
    | none => rfl
    | some m =>
        have := hcap m (by rw [hmax]; exact rfl)
        simp [Nat.not_le_of_lt this]
  simp [hurl]

/-- C1 (witness): the amended theorem at the concrete session of the
counterexample. -/
theorem get_downloadable_insufficient_tier_witness :
    get_downloadable ⟨some 1, false, some [120]⟩
        ⟨none, 1, 2, 3, [116], ascii "abcd1234", [55]⟩ [52, 50] 2 =
      .error (.NonStreamable wrongLicenseMsg) := by
  exact get_downloadable_insufficient_tier _ _ _ 2 1 "FLAC" rfl rfl
    (by intro m hm; simp only [Option.mem_def, Option.some.injEq] at hm
        subst hm; decide)

/-! ## Claim C2: ledger check in `PendingLabel.resolve` -/

/-- C2 (counterexample): with the id `[52, 50]` already recorded `succeeded`
in the ledger, `PendingLabel.resolve` still issues its `get_metadata` network
call — the call log is not empty, refuting "no network resolution call". -/
theorem pending_label_resolve_ledger_counterexample :
    ([52, 50] : Bytes) ∈ (Database.mk [[52, 50]] []).downloaded ∧
    (PendingLabel.resolve ⟨[52, 50], ⟨[[52, 50]], []⟩⟩
        ⟨fun _ _ => .ok ⟨"lbl", []⟩⟩).1 =
      [.get_metadata_call [52, 50] "label"] := by
  exact ⟨by decide, rfl⟩

/-- C2 (amended): `PendingLabel.resolve` never consults the Dedup Ledger: for
every pending label and every client, it issues exactly one `get_metadata`
network call, regardless of the ledger's contents. -/
theorem pending_label_resolve_always_calls (p : PendingLabel) (client : ClientEnv) :
    (PendingLabel.resolve p client).1 = [.get_metadata_call p.id "label"] := by
  rfl

/-! ## Claim C3: the derivation steps -/

set_option maxRecDepth 40000 in
/-- C3 (counterexample): on the concrete tuple
`{trackHash = "abcd1234", formatCode = 1, id = "42", version = "7"}` the
buffer the spec's words build (digest prepended directly, zero-byte padding)
differs from the buffer the code encrypts (a separator follows the digest and
the padding bytes are ASCII `.`). -/
theorem derivation_spec_buffer_counterexample :
    spec_padded_buffer (ascii "42") (ascii "abcd1234") (ascii "7") ≠
      info_bytes (ascii "42") (ascii "abcd1234") (ascii "7") := by
  decide

/-- C3 (amended): the derivation joins the four fields with the 0xA4
separator, prepends the MD5 hex digest followed by a separator, appends a
trailing separator, pads with ASCII `.` (0x2E) bytes up to the 16-byte cipher
block size, and encrypts with AES in ECB mode under the fixed key to obtain
the resource path: the amended wording and the code agree on every input. -/
theorem derivation_follows_amended_spec (meta_id track_hash media_version : Bytes) :
    amended_padded_buffer meta_id track_hash media_version =
      info_bytes meta_id track_hash media_version ∧
    amended_spec_path meta_id track_hash media_version =
      encrypted_path meta_id track_hash media_version := by
  constructor
  · rfl
  · rfl

/-! ## Claim C4: fallback when the primary negotiation yields no URL -/

/-- C4 (counterexample): with the primary negotiation yielding no URL and a
track whose `MD5_ORIGIN` is the empty string, the derivation fallback fails
(`track_hash[0]` raises `IndexError`), and `get_downloadable` propagates that
`IndexError` unconverted — it does not raise `NonStreamable`, refuting the
claim's "if that derivation also fails, getDownloadable raises
NonStreamable". -/
theorem get_downloadable_derivation_failure_counterexample :
    get_downloadable ⟨some 2, false, none⟩ ⟨none, 1, 2, 3, [116], [], [55]⟩
        [52, 50] 2 =
      .error (.indexError "string index out of range") := by
  rfl

/-- C4 (amended): when the primary URL-fetch negotiation yields no URL, the
client falls back to the deterministic encrypted-URL derivation; when the
derivation succeeds (every nonempty track hash) the returned
`DeezerDownloadable` carries the derived URL, which always begins with the
`https` bytes, so a downloadable without a URL is never returned; but when
the derivation fails (empty track hash) `get_downloadable` propagates the
raw `IndexError` rather than raising `NonStreamable`. -/
theorem get_downloadable_fallback (gw : GwSession) (ti : TrackInfo)
    (item_id : Bytes) (quality n : Nat) (fmt : String)
    (hq : quality_map[quality]? = some (n, fmt))
    (hfetch : get_track_url gw fmt = .ok none) :
    (ti.MD5_ORIGIN = [] →
      get_downloadable gw ti item_id quality =
        .error (.indexError "string index out of range")) ∧
    (∀ h0 t, ti.MD5_ORIGIN = h0 :: t →
      ∃ d, get_downloadable gw ti item_id quality = .ok d ∧
        _get_encrypted_file_url item_id ti.MD5_ORIGIN ti.MEDIA_VERSION =
          .ok d.dl_info.url ∧
        ∃ rest, d.dl_info.url = 104 :: 116 :: 116 :: 112 :: 115 :: rest) := by
  have hcore : get_downloadable gw ti item_id quality =
      match _get_encrypted_file_url item_id ti.MD5_ORIGIN ti.MEDIA_VERSION with
      | .error e => .error e
      | .ok url => .ok ⟨⟨quality, item_id, ti.FALLBACK_SNG_ID,
          quality_map.map (fun p => filesizeOf ti p.2), url⟩⟩ := by
    unfold get_downloadable
    rw [hq]
    dsimp only
    rw [hfetch]
  constructor
  · intro hempty
    rw [hcore, hempty]
    rfl
  · intro h0 t hcons
    have hu : _get_encrypted_file_url item_id ti.MD5_ORIGIN ti.MEDIA_VERSION =
        .ok (ascii "https://e-cdns-proxy-" ++ [h0] ++
          ascii ".dzcdn.net/mobile/1/" ++
          encrypted_path item_id ti.MD5_ORIGIN ti.MEDIA_VERSION) := by
      rw [hcons]
      rfl
    refine ⟨⟨⟨quality, item_id, ti.FALLBACK_SNG_ID,
        quality_map.map (fun p => filesizeOf ti p.2),
        ascii "https://e-cdns-proxy-" ++ [h0] ++
          ascii ".dzcdn.net/mobile/1/" ++
          encrypted_path item_id ti.MD5_ORIGIN ti.MEDIA_VERSION⟩⟩, ?_, hu, ⟨_, rfl⟩⟩
    rw [hcore, hu]

/-- C4 (witness): a session licensed for the requested tier whose primary
negotiation yields no URL, on a track with a nonempty hash: the fallback URL
is taken and carried by the result. -/
theorem get_downloadable_fallback_witness :
    ∃ d, get_downloadable ⟨some 2, false, none⟩
        ⟨none, 1, 2, 3, [116], ascii "abcd1234", [55]⟩ [52, 50] 2 = .ok d ∧
      _get_encrypted_file_url [52, 50] (ascii "abcd1234") [55] = .ok d.dl_info.url ∧
      ∃ rest, d.dl_info.url = 104 :: 116 :: 116 :: 112 :: 115 :: rest := by
  exact (get_downloadable_fallback ⟨some 2, false, none⟩
    ⟨none, 1, 2, 3, [116], ascii "abcd1234", [55]⟩ [52, 50] 2 1 "FLAC" rfl rfl).2
    97 (ascii "bcd1234") rfl

/-! ## Claim C5: metadata dispatch and the label type -/

/-- A concrete API environment for the C5 counterexample. -/
def apiForDispatch : DeezerApi where
  api_get_track := fun _ => .ok ⟨0, .basic [49]⟩
  api_get_album := fun _ => .ok ⟨[49], 0, [], 0⟩
  api_get_album_tracks := fun _ => .ok ⟨[]⟩
  api_get_playlist := fun _ => .ok ⟨0, [], 0⟩
  api_get_playlist_tracks := fun _ => .ok ⟨[]⟩
  api_get_artist := fun _ => .ok ⟨0, []⟩
  api_get_artist_albums := fun _ => .ok ⟨[]⟩

/-- C5 (counterexample): `get_metadata` called with `"label"` — exactly what
`PendingLabel.resolve` does — falls into the unsupported-type branch and
raises the generic "not available on deezer" exception, even though every
endpoint of the API responds successfully. -/
theorem get_metadata_label_counterexample :
    get_metadata apiForDispatch [52, 50] "label" =
      .error (.genericException "Media type label not available on deezer") := by
  rfl

/-- C5 (amended): the Deezer client's `get_metadata` supports exactly the
types track, album, playlist and artist; every other media type — in
particular `"label"` — raises the unsupported-type provider error, so
`PendingLabel.resolve` against this client always fails. -/
theorem get_metadata_unsupported_type (api : DeezerApi) (item_id : Bytes)
    (media_type : String)
    (h1 : media_type ≠ "track") (h2 : media_type ≠ "album")
    (h3 : media_type ≠ "playlist") (h4 : media_type ≠ "artist") :
    get_metadata api item_id media_type =
      .error (.genericException ("Media type " ++ media_type ++ " not available on deezer")) := by
  unfold get_metadata
  simp [h1, h2, h3, h4]

/-- C5 (witness): the amended theorem at the media type `"label"`. -/
theorem get_metadata_unsupported_type_witness :
    get_metadata apiForDispatch [52, 50] "label" =
      .error (.genericException ("Media type " ++ "label" ++ " not available on deezer")) := by
  exact get_metadata_unsupported_type apiForDispatch [52, 50] "label"
    (by decide) (by decide) (by decide) (by decide)

/-! ## Claim C6: login outcomes -/

/-- C6: `login` raises `MissingCredentials` exactly when no arl is
configured, `AuthenticationError` exactly when an arl is configured but the
provider rejects it, succeeds exactly when the provider accepts it — in
which case `logged_in` is set — and no other outcome is possible. -/
theorem login_outcomes (arl : String) (login_via_arl : String → Bool) :
    (login arl login_via_arl = .error .MissingCredentials ↔ arl = "") ∧
    (login arl login_via_arl = .error .AuthenticationError ↔
      arl ≠ "" ∧ login_via_arl arl = false) ∧
    (login arl login_via_arl = .ok ⟨true⟩ ↔
      arl ≠ "" ∧ login_via_arl arl = true) ∧
    (∀ st, login arl login_via_arl = .ok st → st.logged_in = true) := by
  unfold login
  by_cases h : arl = "" <;> by_cases ha : login_via_arl arl <;> simp [h, ha]

/-- C6 (witness): the three outcomes at concrete credentials. -/
theorem login_outcomes_witness :
    login "" (fun _ => true) = .error .MissingCredentials ∧
    login "arl" (fun _ => false) = .error .AuthenticationError ∧
    login "arl" (fun _ => true) = .ok ⟨true⟩ := by
  refine ⟨(login_outcomes "" (fun _ => true)).1.mpr rfl,
    ((login_outcomes "arl" (fun _ => false)).2.1).mpr ⟨by decide, rfl⟩,
    ((login_outcomes "arl" (fun _ => true)).2.2.1).mpr ⟨by decide, rfl⟩⟩

/-! ## Claim C7: the rip phase order -/

/-- C7: `Media.rip` invokes the phases in the fixed order preprocess,
download, postprocess: whenever it completes successfully all three phases
ran exactly once in that order, and in every execution the invoked phases
form a prefix of that order (nothing reordered, nothing else invoked). -/
theorem rip_phase_order {σ ε : Type} (m : MediaImpl σ ε) (s : σ) :
    (∀ s', (rip m s).2 = .ok s' →
      (rip m s).1 = [.preprocess, .download, .postprocess]) ∧
    (∃ t, (rip m s).1 ++ t = [.preprocess, .download, .postprocess]) := by
  rcases hp : m.preprocess s with ep | s1
  · exact ⟨fun s' h => by simp [rip, hp] at h,
      ⟨[.download, .postprocess], by simp [rip, hp]⟩⟩
  · rcases hd : m.download s1 with ed | s2
    · exact ⟨fun s' h => by simp [rip, hp, hd] at h,
        ⟨[.postprocess], by simp [rip, hp, hd]⟩⟩
    · rcases ho : m.postprocess s2 with eo | s3
      · exact ⟨fun s' h => by simp [rip, hp, hd, ho] at h,
          ⟨[], by simp [rip, hp, hd, ho]⟩⟩
      · exact ⟨fun s' _ => by simp [rip, hp, hd, ho],
          ⟨[], by simp [rip, hp, hd, ho]⟩⟩

/-- C7 (witness): a concrete media object whose three phases all succeed
rips through exactly the three phases in order. -/
theorem rip_phase_order_witness :
    (rip (⟨fun s => .ok s, fun s => .ok s, fun s => .ok s⟩ : MediaImpl Unit Unit)
        ()).1 = [.preprocess, .download, .postprocess] := by
  exact (rip_phase_order ⟨fun s => .ok s, fun s => .ok s, fun s => .ok s⟩ ()).1 () rfl

/-! ## Claim C8: determinism of the derivation -/

set_option maxRecDepth 100000 in
/-- C8: the URL derivation depends on nothing but its argument tuple — two
invocations on equal tuples yield identical output — and it reproduces the
fixed regression vector for the tuple
`{trackHash = "abcd1234", formatCode = 1, id = "42", version = "7"}`. -/
theorem get_encrypted_file_url_deterministic :
    (∀ a b c a' b' c' : Bytes, a = a' → b = b' → c = c' →
      _get_encrypted_file_url a b c = _get_encrypted_file_url a' b' c') ∧
    _get_encrypted_file_url (ascii "42") (ascii "abcd1234") (ascii "7") =
      .ok (ascii ("https://e-cdns-proxy-a.dzcdn.net/mobile/1/" ++
        "9fff30e091e91274319386a0ab5b79f6bef89c106b3965d4df28907d9f602da8" ++
        "b5560dc59983a413ff0b6ca06915e963f8a33a0ae3f3f78186dd44d93fe2fb21")) := by
  constructor
  · intro a b c a' b' c' ha hb hc
    rw [ha, hb, hc]
  · show Except.ok _ = _
    rw [Except.ok.injEq]
    decide

/-- C8 (witness): the determinism clause applied at an equal concrete pair of
tuples. -/
theorem get_encrypted_file_url_deterministic_witness :
    _get_encrypted_file_url (ascii "42") (ascii "abcd1234") (ascii "7") =
      _get_encrypted_file_url (ascii "42") (ascii "abcd1234") (ascii "7") := by
  exact get_encrypted_file_url_deterministic.1 _ _ _ _ _ _ rfl rfl rfl

/-! ## Claim C9: padding totality -/

/-- C9: for every input tuple the computed padding length lies between 1 and
16, the padded buffer length is a positive multiple of 16 (so the AES-ECB
block-alignment precondition always holds), and when the pre-padding length
is already a multiple of 16 a full extra 16-byte block is appended. -/
theorem padding_total (meta_id track_hash media_version : Bytes) :
    1 ≤ padding_len meta_id track_hash media_version ∧
    padding_len meta_id track_hash media_version ≤ 16 ∧
    (info_bytes meta_id track_hash media_version).length % 16 = 0 ∧
    0 < (info_bytes meta_id track_hash media_version).length ∧
    ((info_bytes_prepad meta_id track_hash media_version).length % 16 = 0 →
      padding_len meta_id track_hash media_version = 16) := by
  have hlen : (info_bytes meta_id track_hash media_version).length =
      (info_bytes_prepad meta_id track_hash media_version).length +
        padding_len meta_id track_hash media_version := by
    simp [info_bytes]
  unfold padding_len at *
  omega

/-- C9 (witness): a tuple whose pre-padding buffer length is exactly 48, a
multiple of 16, receives a full 16-byte padding block. -/
theorem padding_total_witness :
    padding_len (ascii "1") (ascii "abcd1234") (ascii "1") = 16 := by
  exact (padding_total (ascii "1") (ascii "abcd1234") (ascii "1")).2.2.2.2 (by decide)

/-! ## Claim C10: partial-failure behaviour of `get_track` vs `get_album` -/

/-- C10: if the track fetch succeeds and either concurrent album sub-request
raises, `get_track` returns the bare track metadata unchanged instead of
propagating the exception; whereas `get_album` propagates a failure of either
of its two concurrent sub-requests to the caller. -/
theorem get_track_degrades_get_album_propagates (api : DeezerApi)
    (item_id : Bytes) (t : TrackResp) (e : DeezerErr)
    (htrack : api.api_get_track item_id = .ok t)
    (hfail : gather2 (api.api_get_album t.album.albumId)
        (api.api_get_album_tracks t.album.albumId) = .error e) :
    get_track api item_id = .ok t ∧
    (∀ (i : Bytes) (e' : DeezerErr),
      gather2 (api.api_get_album i) (api.api_get_album_tracks i) = .error e' →
      get_album api i = .error e') := by
  constructor
  · unfold get_track
    rw [htrack]
    dsimp only
    rw [hfail]
  · intro i e' hfail'
    unfold get_album
    rw [hfail']

/-- C10 (witness): a concrete API whose album-header endpoint raises — the
track lookup still returns the bare track, while the album lookup fails. -/
theorem get_track_degrades_witness :
    get_track
      ⟨fun _ => .ok ⟨7, .basic [49]⟩, fun _ => .error (.apiError "boom"),
        fun _ => .ok ⟨[]⟩, fun _ => .ok ⟨0, [], 0⟩, fun _ => .ok ⟨[]⟩,
        fun _ => .ok ⟨0, []⟩, fun _ => .ok ⟨[]⟩⟩ [52, 50] = .ok ⟨7, .basic [49]⟩ ∧
    get_album
      ⟨fun _ => .ok ⟨7, .basic [49]⟩, fun _ => .error (.apiError "boom"),
        fun _ => .ok ⟨[]⟩, fun _ => .ok ⟨0, [], 0⟩, fun _ => .ok ⟨[]⟩,
        fun _ => .ok ⟨0, []⟩, fun _ => .ok ⟨[]⟩⟩ [52, 50] =
      .error (.apiError "boom") := by
  have h := get_track_degrades_get_album_propagates
    ⟨fun _ => .ok ⟨7, .basic [49]⟩, fun _ => .error (.apiError "boom"),
      fun _ => .ok ⟨[]⟩, fun _ => .ok ⟨0, [], 0⟩, fun _ => .ok ⟨[]⟩,
      fun _ => .ok ⟨0, []⟩, fun _ => .ok ⟨[]⟩⟩ [52, 50] ⟨7, .basic [49]⟩
    (.apiError "boom") rfl rfl
  exact ⟨h.1, h.2 [52, 50] (.apiError "boom") rfl⟩

end Streamrip
